import Mathlib

/-!
Verification of the Task Routing & Notification Delivery subsystem of the
sms2AIagent repository.

The Python sources are shallowly embedded: pure helpers become Lean
functions, SQLite/Django reads and writes become explicit state passing,
and fallible operations (network, storage) become `Except` values injected
by the caller.  Machine floats of the source are modelled by exact
rationals; timestamps are modelled by integers or rationals as noted at
each definition.
-/

namespace Sms2AI

/-! ## Python string primitives

`str.lower`, `in` (substring test), `str.count` (non-overlapping substring
count) and `str.split()` (whitespace split), restricted to the ASCII texts
the routing rules use. -/

/-- ASCII lower-casing of one character, as Python `str.lower` acts on the
ASCII range used by the routing keyword tables. -/
def asciiLower (c : Char) : Char :=
  if 'A' ≤ c ∧ c ≤ 'Z' then Char.ofNat (c.toNat + 32) else c

/-- `str.lower` on the character list of a text. -/
def pyLower (cs : List Char) : List Char := cs.map asciiLower

/-- Python `needle in haystack`: substring containment. -/
def containsSub (needle : List Char) : List Char → Bool
  | [] => needle.isEmpty
  | c :: cs => needle.isPrefixOf (c :: cs) || containsSub needle cs

/-- Python `haystack.count(needle)` for a non-empty needle: number of
non-overlapping occurrences, scanning left to right (the scan resumes
right after each match). -/
def countSub (needle : List Char) : List Char → Nat
  | [] => 0
  | c :: cs =>
    if needle.isPrefixOf (c :: cs) then
      1 + countSub needle (cs.drop (needle.length - 1))
    else
      countSub needle cs
termination_by cs => cs.length
decreasing_by
  · simp only [List.length_cons, List.length_drop]; omega
  · simp only [List.length_cons]; omega

/-- Accumulating helper for Python `str.split()`. -/
def pyWordsAux : List Char → List Char → List (List Char)
  | acc, [] => if acc.isEmpty then [] else [acc.reverse]
  | acc, c :: cs =>
    if c.isWhitespace then
      if acc.isEmpty then pyWordsAux [] cs else acc.reverse :: pyWordsAux [] cs
    else
      pyWordsAux (c :: acc) cs

/-- Python `text.split()`: split on whitespace runs, no empty words. -/
def pyWords (cs : List Char) : List (List Char) := pyWordsAux [] cs

/-- Substring test lifted to `String`, lowering the haystack as the source
does with `text_lower = request_text.lower()`. -/
def keywordIn (keyword : String) (textLower : List Char) : Bool :=
  containsSub keyword.data textLower

/-! ## `task_router.py` — `TaskRouter._load_routing_rules` -/

/-- `routing_rules["coding_keywords"]`. -/
def coding_keywords : List String :=
  ["function", "class", "algorithm", "code", "program", "script",
   "api", "database", "sql", "python", "javascript", "react",
   "html", "css", "json", "xml", "regex", "loop", "array"]

/-- `routing_rules["debug_keywords"]`. -/
def debug_keywords : List String :=
  ["error", "bug", "fix", "debug", "troubleshoot", "issue",
   "broken", "not working", "problem", "exception", "crash"]

/-- `routing_rules["design_keywords"]`. -/
def design_keywords : List String :=
  ["design", "ui", "ux", "layout", "interface", "mockup",
   "wireframe", "prototype", "user experience", "responsive"]

/-- `routing_rules["documentation_keywords"]`. -/
def documentation_keywords : List String :=
  ["documentation", "readme", "guide", "tutorial", "manual",
   "instructions", "explain", "how to", "steps", "process"]

/-- `routing_rules["analysis_keywords"]`. -/
def analysis_keywords : List String :=
  ["analyze", "review", "compare", "evaluate", "assess",
   "performance", "optimization", "metrics", "data", "report"]

/-- The routing-rule table in its Python insertion order (the order of dict
iteration, which `max` over the score dict depends on). -/
def routing_rules : List (String × List String) :=
  [("coding", coding_keywords),
   ("debug", debug_keywords),
   ("design", design_keywords),
   ("documentation", documentation_keywords),
   ("analysis", analysis_keywords)]

/-! ## `TaskRouter._analyze_task` -/

/-- `category_scores`: for each category, the count of its keywords that
occur (as substrings) in the lowered text, in dict insertion order. -/
def category_scores (request_text : String) : List (String × Nat) :=
  let text_lower := pyLower request_text.data
  routing_rules.map (fun p =>
    (p.1, (p.2.filter (fun k => keywordIn k text_lower)).length))

/-- Python `max(iterable, key=f)`: the first element attaining the maximal
key, realised as a left fold that replaces the best only on a strictly
greater score. -/
def pyMaxByScore (l : List (String × Nat)) : Option (String × Nat) :=
  l.foldl
    (fun acc p =>
      match acc with
      | none => some p
      | some q => if p.2 > q.2 then some p else some q)
    none

/-- `primary_category` of `_analyze_task`:
`max(category_scores, key=category_scores.get) if category_scores else
"general"`. -/
def primary_category (request_text : String) : String :=
  match pyMaxByScore (category_scores request_text) with
  | some p => p.1
  | none => "general"

/-! ## `TaskRouter._calculate_complexity` and `_estimate_tokens`

Python floats are modelled by exact rationals. -/

/-- `complexity_weights` of `_load_routing_rules`. -/
def complexity_weights : Rat × Rat × Rat × Rat := (1/10, 3/10, 4/10, 1/5)

/-- The fixed technical vocabulary of `_calculate_complexity`. -/
def technical_vocabulary : List String :=
  ["api", "database", "algorithm", "framework", "library", "class", "function"]

/-- The step-sequence indicator words shared by `_calculate_complexity`
and the `is_multi_step` flag of `_analyze_task`. -/
def step_words : List String :=
  ["step", "then", "next", "after", "first", "second"]

/-- `min(x, 1.0)` over rationals. -/
def clamp1 (x : Rat) : Rat := min x 1

/-- `TaskRouter._calculate_complexity`: weighted sum of four clamped
terms, clamped to 1. -/
def calculate_complexity (request_text : String) : Rat :=
  let word_count : Nat := (pyWords request_text.data).length
  let technical_terms : Nat :=
    ((pyWords (pyLower request_text.data)).filter
      (fun w => technical_vocabulary.any (fun t => t.data = w))).length
  let code_indicators : Nat :=
    countSub "```".data request_text.data
      + countSub "def ".data request_text.data
      + countSub "class ".data request_text.data
  let step_indicators : Nat :=
    (step_words.filter (fun w => keywordIn w (pyLower request_text.data))).length
  let c : Rat :=
    clamp1 ((word_count : Rat) / 100) * (1/10)
      + clamp1 ((technical_terms : Rat) / 5) * (3/10)
      + clamp1 ((code_indicators : Rat) / 3) * (4/10)
      + clamp1 ((step_indicators : Rat) / 3) * (1/5)
  min c 1

/-- `TaskRouter._estimate_tokens`: `int(words * 1.3 * (1 + 3*score))`,
with Python `int()` truncating the non-negative product downwards. -/
def estimate_tokens (request_text : String) (complexity_score : Rat) : Nat :=
  let base : Rat := ((pyWords request_text.data).length : Rat) * (13/10)
  (Rat.floor (base * (1 + complexity_score * 3))).toNat

/-- The dictionary returned by `TaskRouter._analyze_task`. -/
structure TaskAnalysis where
  category : String
  category_scores : List (String × Nat)
  complexity_score : Rat
  estimated_tokens : Nat
  word_count : Nat
  has_code_blocks : Bool
  is_multi_step : Bool
deriving Repr, DecidableEq

/-- `TaskRouter._analyze_task`. -/
def analyze_task (request_text : String) : TaskAnalysis :=
  let text_lower := pyLower request_text.data
  let complexity := calculate_complexity request_text
  { category := primary_category request_text
    category_scores := category_scores request_text
    complexity_score := complexity
    estimated_tokens := estimate_tokens request_text complexity
    word_count := (pyWords request_text.data).length
    has_code_blocks :=
      containsSub "```".data request_text.data
        || containsSub "def ".data request_text.data
    is_multi_step := step_words.any (fun w => keywordIn w text_lower) }

/-! ## `TaskRouter._update_user_activity`

A row of the SQLite `users` table; timestamps are abstract instants
modelled as naturals. -/

structure UserRow where
  phone_number : String
  tier : String
  last_active : Nat
  total_requests : Nat
  monthly_requests : Nat
  monthly_reset_date : Nat
deriving Repr, DecidableEq

/-- The projection of a `users` row that `_update_user_activity` returns
to `route_task`. -/
structure UserInfo where
  phone_number : String
  tier : String
  total_requests : Nat
  monthly_requests : Nat
deriving Repr, DecidableEq

/-- The `UPDATE users SET ...` branch of `_update_user_activity` for an
existing user: bumps `last_active`, `total_requests` and
`monthly_requests`.  No other column is touched — in particular
`monthly_reset_date` is neither read nor written. -/
def update_user_activity (now : Nat) (u : UserRow) : UserRow :=
  { u with
    last_active := now
    total_requests := u.total_requests + 1
    monthly_requests := u.monthly_requests + 1 }

/-- The `INSERT INTO users` branch of `_update_user_activity` for an
unknown phone number: tier defaults to `'free'`, counters to 0,
`monthly_reset_date` to `date('now', '+1 month')`. -/
def insert_new_user (now next_month : Nat) (phone_number : String) : UserRow :=
  { phone_number := phone_number
    tier := "free"
    last_active := now
    total_requests := 0
    monthly_requests := 0
    monthly_reset_date := next_month }

/-- `_update_user_activity` over the optional stored row, returning the
updated row (the projection of which is handed to `route_task`). -/
def update_user_activity_db (now next_month : Nat) (phone_number : String) :
    Option UserRow → UserRow
  | some u => update_user_activity now u
  | none => insert_new_user now next_month phone_number

/-- Projection of a row to the dict returned by `_update_user_activity`. -/
def userInfoOf (u : UserRow) : UserInfo :=
  { phone_number := u.phone_number
    tier := u.tier
    total_requests := u.total_requests
    monthly_requests := u.monthly_requests }

/-! ## `TaskRouter._check_rate_limits` -/

/-- The per-tier request limits of `_check_rate_limits`. -/
structure TierLimits where
  monthly : Nat
  daily : Nat
deriving Repr, DecidableEq

/-- `limits.get(tier, limits["free"])`. -/
def tierLimits (tier : String) : TierLimits :=
  if tier = "free" then ⟨50, 10⟩
  else if tier = "premium" then ⟨500, 50⟩
  else if tier = "enterprise" then ⟨5000, 200⟩
  else ⟨50, 10⟩

/-- The three dictionaries `_check_rate_limits` can return. -/
inductive RateLimitResult
  | allowed
  | deniedMonthly (error : String) (upgrade_suggestion : Bool)
  | deniedDaily (error : String) (retry_after : String)
deriving Repr, DecidableEq

/-- `TaskRouter._check_rate_limits`.  The daily count is the outcome of
the `_get_daily_request_count` SQLite query, injected as an `Except`
because the store can fail; the query runs only when the monthly check
passes, as in the source. -/
def check_rate_limits (tier : String) (monthly_requests : Nat)
    (daily : Except String Nat) : Except String RateLimitResult :=
  let lim := tierLimits tier
  if monthly_requests ≥ lim.monthly then
    .ok (.deniedMonthly
      (s!"Monthly limit exceeded ({lim.monthly} requests/month for {tier} tier)")
      true)
  else
    match daily with
    | .error e => .error e
    | .ok daily_count =>
      if daily_count ≥ lim.daily then
        .ok (.deniedDaily
          (s!"Daily limit exceeded ({lim.daily} requests/day for {tier} tier)")
          "24 hours")
      else .ok .allowed

/-! ## `TaskRouter._calculate_priority` -/

/-- The `TaskPriority` enum. -/
inductive TaskPriority
  | low | medium | high | urgent
deriving Repr, DecidableEq

/-- `TaskPriority.name`. -/
def TaskPriority.pname : TaskPriority → String
  | .low => "LOW"
  | .medium => "MEDIUM"
  | .high => "HIGH"
  | .urgent => "URGENT"

/-- `TaskPriority.value`. -/
def TaskPriority.pvalue : TaskPriority → Nat
  | .low => 1
  | .medium => 2
  | .high => 3
  | .urgent => 4

/-- `TaskRouter._calculate_priority`: base priority from the tier
(default LOW), bumped one level when complexity exceeds 0.8. -/
def calculate_priority (tier : String) (complexity : Rat) : TaskPriority :=
  let base : TaskPriority :=
    if tier = "free" then .low
    else if tier = "premium" then .medium
    else if tier = "enterprise" then .high
    else .low
  if complexity > 8/10 then
    match base with
    | .low => .medium
    | .medium => .high
    | _ => .urgent
  else base

/-! ## `TaskRouter._make_routing_decision` -/

/-- The dictionary returned by `_make_routing_decision`. -/
structure RoutingDecision where
  model : String
  max_tokens : Nat
  temperature : Rat
  use_system_prompt : Bool
  enable_code_execution : Bool
deriving Repr, DecidableEq

/-- `TaskRouter._make_routing_decision` (the analysis contributes only
its category and complexity score, the user info only its tier). -/
def make_routing_decision (category : String) (complexity : Rat)
    (tier : String) : RoutingDecision :=
  let mt : String × Nat :=
    if category = "coding" ∧ complexity > 6/10 then
      (if tier ≠ "free" then "gpt-4" else "gpt-3.5-turbo",
       if complexity > 8/10 then 2000 else 1500)
    else if category = "debug" then ("gpt-4", 1500)
    else if category = "design" then ("gpt-4", 1200)
    else ("gpt-3.5-turbo", 1000)
  { model := mt.1
    max_tokens := mt.2
    temperature := if category = "coding" ∨ category = "debug" then 3/10 else 7/10
    use_system_prompt := true
    enable_code_execution := category = "coding" ∧ tier = "enterprise" }

/-! ## `TaskRouter.route_task` orchestration

The SQLite side effects of `route_task` — the user update, the daily-count
query and the task insert — are injected as `Except` outcomes (the store
can be unavailable); the tasks and error-log tables are threaded as
explicit state.  The pure analysis, rate-limit arithmetic, priority and
routing-decision logic is the embedded code above. -/

/-- A row of the `tasks` table as written by `_create_task_record`
(`task_hash`, a digest of phone, text and the creation instant, is kept
abstract). -/
structure TaskRow where
  user_phone : String
  category : String
  priority : Nat
  complexity_score : Rat
  request_text : String
  tokens_used : Nat
deriving Repr, DecidableEq

/-- A row of the `error_logs` table as written by `_log_error`. -/
structure ErrorLogRow where
  user_phone : String
  error_type : String
  error_message : String
  request_text : String
deriving Repr, DecidableEq

/-- The mutable tables `route_task` touches. -/
structure RouterState where
  tasks : List TaskRow
  error_logs : List ErrorLogRow
deriving Repr, DecidableEq

/-- `TaskRouter._log_error`: append one row to `error_logs`. -/
def log_error (st : RouterState) (user_phone error_type error_message
    request_text : String) : RouterState :=
  { st with error_logs :=
      st.error_logs ++ [⟨user_phone, error_type, error_message, request_text⟩] }

/-- The three shapes of dictionary `route_task` can return: the success
dict, the denial dict passed through from `_check_rate_limits`, and the
`except`-branch dict `{"success": False, "error": "Task routing failed",
"fallback_to_basic": True}`. -/
inductive RouteResult
  | ok (task_id : Nat) (category : String) (priority : String)
       (complexity_score : Rat) (routing_decision : RoutingDecision)
       (user_tier : String) (estimated_tokens : Nat)
  | denied (check : RateLimitResult)
  | failed (error : String) (fallback_to_basic : Bool)
deriving Repr, DecidableEq

/-- `TaskRouter.route_task`.  `activity` is the outcome of
`_update_user_activity`, `daily` of `_get_daily_request_count`, and
`persist` the task id allotted by `_create_task_record`; an `.error`
value models the corresponding store call raising.  Any raise inside the
`try` block falls to the `except` branch, which logs a `ROUTING_ERROR`
row and returns the fallback dictionary. -/
def route_task (user_phone request_text : String)
    (activity : Except String UserInfo)
    (daily : Except String Nat)
    (persist : Except String Nat)
    (st : RouterState) : RouteResult × RouterState :=
  let fail (e : String) : RouteResult × RouterState :=
    (.failed "Task routing failed" true,
     log_error st user_phone "ROUTING_ERROR" e request_text)
  match activity with
  | .error e => fail e
  | .ok user_info =>
    let analysis := analyze_task request_text
    match check_rate_limits user_info.tier user_info.monthly_requests daily with
    | .error e => fail e
    | .ok (.deniedMonthly msg up) => (.denied (.deniedMonthly msg up), st)
    | .ok (.deniedDaily msg ra) => (.denied (.deniedDaily msg ra), st)
    | .ok .allowed =>
      let priority := calculate_priority user_info.tier analysis.complexity_score
      match persist with
      | .error e => fail e
      | .ok task_id =>
        let row : TaskRow :=
          { user_phone := user_phone
            category := analysis.category
            priority := priority.pvalue
            complexity_score := analysis.complexity_score
            request_text := request_text
            tokens_used := analysis.estimated_tokens }
        let decision :=
          make_routing_decision analysis.category analysis.complexity_score
            user_info.tier
        (.ok task_id analysis.category priority.pname analysis.complexity_score
           decision user_info.tier analysis.estimated_tokens,
         { st with tasks := st.tasks ++ [row] })

/-! ## `core/views.py` — the Django-side rate limiter

`core/models.py` stores a `rate_limit_reset` timestamp on the user and
derives `rate_limit` from the tier; `core/views.py::check_rate_limit`
resets the monthly counter when the reset instant has passed and then
compares the counter against the limit, allowing the request whenever
anything inside raises (`return True  # Allow on error`). -/

/-- The fields of the Django `User` model that `check_rate_limit`
reads and writes (timestamps as naturals). -/
structure DjangoUser where
  tier : String
  monthly_requests : Nat
  rate_limit_reset : Nat
deriving Repr, DecidableEq

/-- The `User.rate_limit` property of `core/models.py`:
free 10, premium 100, enterprise 1000, default 10. -/
def django_rate_limit (tier : String) : Nat :=
  if tier = "free" then 10
  else if tier = "premium" then 100
  else if tier = "enterprise" then 1000
  else 10

/-- `core/views.py::check_rate_limit`.  `next_month` is the reset instant
the reset branch writes; `save` is the outcome of `user.save()` — the one
store call inside the `try` block that can raise.  On any raise the
function returns `true` (its source comment: allow on error). -/
def views_check_rate_limit (now next_month : Nat) (user : DjangoUser)
    (save : Except String Unit) : Bool :=
  let attempt : Except String DjangoUser :=
    if user.rate_limit_reset ≤ now then
      let u := { user with monthly_requests := 0, rate_limit_reset := next_month }
      match save with
      | .error e => .error e
      | .ok _ => .ok u
    else .ok user
  match attempt with
  | .error _ => true
  | .ok u => decide (u.monthly_requests < django_rate_limit u.tier)

/-! ## `notification_system.py` — template rendering

`NotificationSystem._render_template` calls Python `template.format(**variables)`
and catches only `KeyError`.  `pyFormatGo` embeds the `str.format` scanner
for the simple named fields the repository's templates use: a doubled
brace is an escape producing one literal brace, `\x7bname\x7d` is a
lookup in the keyword arguments (`KeyError` when absent), an empty or
all-digit field refers to positional arguments — of which `**variables`
supplies none (`IndexError`) — a lone closing brace or an unterminated
field is a `ValueError`.  Conversion and format-spec suffixes are not
modelled; no template in the repository uses them. -/

inductive PyFormatError
  | keyError (name : String)
  | indexError
  | valueError
deriving Repr, DecidableEq

/-- One pass of the `str.format` scanner; the first argument is `none` in
literal mode and `some acc` (field characters, reversed) inside a
replacement field. -/
def pyFormatGo (vars : List (String × String)) :
    Option (List Char) → List Char → Except PyFormatError String
  | none, [] => .ok ""
  | none, '{' :: '{' :: cs =>
    (fun s => "\x7b" ++ s) <$> pyFormatGo vars none cs
  | none, '}' :: '}' :: cs =>
    (fun s => "\x7d" ++ s) <$> pyFormatGo vars none cs
  | none, '{' :: cs => pyFormatGo vars (some []) cs
  | none, '}' :: _ => .error .valueError
  | none, c :: cs =>
    (fun s => String.mk [c] ++ s) <$> pyFormatGo vars none cs
  | some _, [] => .error .valueError
  | some acc, '}' :: cs =>
    let field := String.mk acc.reverse
    if field.data.isEmpty ∨ field.data.all Char.isDigit then
      .error .indexError
    else
      match (vars.filter (fun p => p.1 = field)).head? with
      | none => .error (.keyError field)
      | some p => (fun s => p.2 ++ s) <$> pyFormatGo vars none cs
  | some _, '{' :: _ => .error .valueError
  | some acc, c :: cs => pyFormatGo vars (some (c :: acc)) cs

/-- Python `template.format(**variables)` for string-valued keyword
arguments. -/
def pyFormat (template : String) (vars : List (String × String)) :
    Except PyFormatError String :=
  pyFormatGo vars none template.data

/-- `NotificationSystem._render_template`: `format` with only `KeyError`
caught — a missing variable makes the whole call return the template
verbatim, while any other format error propagates. -/
def render_template (template : String) (vars : List (String × String)) :
    Except PyFormatError String :=
  match pyFormat template vars with
  | .ok s => .ok s
  | .error (.keyError _) => .ok template
  | .error e => .error e

/-! ## `NotificationSystem._is_quiet_hours` -/

/-- The preference fields `send_notification` consults (hour bounds are
nullable columns). -/
structure UserPrefs where
  email : Option String
  sms_enabled : Bool
  email_enabled : Bool
  webhook_url : Option String
  quiet_hours_start : Option Int
  quiet_hours_end : Option Int
deriving Repr, DecidableEq

/-- `NotificationSystem._is_quiet_hours`, with the current hour injected
(`datetime.now().hour` in the source). -/
def is_quiet_hours (start_hour end_hour : Option Int) (current_hour : Int) :
    Bool :=
  match start_hour, end_hour with
  | some s, some e =>
    if s ≤ e then decide (s ≤ current_hour ∧ current_hour ≤ e)
    else decide (current_hour ≥ s ∨ current_hour ≤ e)
  | _, _ => false

/-! ## `NotificationSystem._determine_channels` -/

/-- The admin webhook configuration read from the environment. -/
structure NotifConfig where
  slack_webhook_url : String
  discord_webhook_url : String
deriving Repr, DecidableEq

/-- Python truthiness of an optional string column. -/
def truthy : Option String → Bool
  | none => false
  | some s => !s.isEmpty

/-- `NotificationSystem._determine_channels`. -/
def determine_channels (cfg : NotifConfig) (prefs : UserPrefs)
    (template_name : String) : List String :=
  (if prefs.sms_enabled then ["sms"] else [])
    ++ (if prefs.email_enabled && truthy prefs.email then ["email"] else [])
    ++ (if truthy prefs.webhook_url then ["webhook"] else [])
    ++ (if template_name.startsWith "system_" || template_name.startsWith "alert_" then
          (if !cfg.slack_webhook_url.isEmpty then ["slack"] else [])
            ++ (if !cfg.discord_webhook_url.isEmpty then ["discord"] else [])
        else [])

/-! ## `NotificationSystem.send_notification` and `_log_notification` -/

/-- The result dictionary every channel sender returns (each `_send_*`
catches its own exceptions and reports `success`/`error`). -/
structure SendResult where
  success : Bool
  error : Option String
deriving Repr, DecidableEq

/-- A row of `notification_history` as written by `_log_notification`. -/
structure HistoryRow where
  recipient : String
  channel : String
  subject : String
  status : String
  delivery_status : String
  error_message : String
deriving Repr, DecidableEq

/-- `NotificationSystem._log_notification`: one append-only history row
per attempt, `sent`/`delivered` on success and `failed`/`failed`
otherwise, with `result.get('error', '')`. -/
def log_notification (recipient channel template_name : String)
    (result : SendResult) (history : List HistoryRow) : List HistoryRow :=
  history ++
    [{ recipient := recipient
       channel := channel
       subject := template_name
       status := if result.success then "sent" else "failed"
       delivery_status := if result.success then "delivered" else "failed"
       error_message := result.error.getD "" }]

/-- The per-channel loop body of `send_notification`: the channel sender
runs (`adapter`), its result is recorded and the attempt is logged; if
the dispatch itself raises (`.error`), the `except` branch stores a
failure result for the channel without logging it. -/
def send_channel (adapter : String → Except String SendResult)
    (recipient template_name : String) (channel : String)
    (acc : List (String × SendResult) × List HistoryRow) :
    List (String × SendResult) × List HistoryRow :=
  match adapter channel with
  | .ok result =>
    (acc.1 ++ [(channel, result)],
     log_notification recipient channel template_name result acc.2)
  | .error e =>
    (acc.1 ++ [(channel, { success := false, error := some e })], acc.2)

/-- `NotificationSystem.send_notification`: resolve channels (explicit
list if truthy, else `_determine_channels`), drop `sms`/`push` during
quiet hours, then attempt every remaining channel, returning the
per-channel results dictionary and the updated history. -/
def send_notification (cfg : NotifConfig) (prefs : UserPrefs)
    (current_hour : Int) (recipient template_name : String)
    (channels : Option (List String))
    (adapter : String → Except String SendResult)
    (history : List HistoryRow) :
    List (String × SendResult) × List HistoryRow :=
  let chs :=
    match channels with
    | none => determine_channels cfg prefs template_name
    | some cs => if cs.isEmpty then determine_channels cfg prefs template_name else cs
  let chs :=
    if is_quiet_hours prefs.quiet_hours_start prefs.quiet_hours_end current_hour then
      chs.filter (fun ch => ch ≠ "sms" ∧ ch ≠ "push")
    else chs
  chs.foldl (fun acc ch => send_channel adapter recipient template_name ch acc)
    ([], history)

/-- The specification's §4.7 aggregation of the dispatcher's per-channel
results: overall success when at least one channel succeeded. -/
def overallSuccess (results : List (String × SendResult)) : Bool :=
  results.any (fun p => p.2.success)

/-! ## `NotificationSystem.check_alert_conditions` -/

/-- The `condition_value` TEXT column as `_evaluate_condition` types it:
`float(v)` when `v.replace('.','').isdigit()`, else the raw string. -/
inductive CondValue
  | num (threshold : Rat)
  | str (value : String)
deriving Repr, DecidableEq

/-- A row of `alert_rules`; instants and cooldowns are counted in whole
minutes. -/
structure AlertRule where
  id : Nat
  name : String
  condition_type : String
  condition_value : CondValue
  alert_level : String
  notification_channels : List String
  enabled : Bool
  cooldown_minutes : Int
  last_triggered : Option Int
deriving Repr, DecidableEq

/-- The metrics snapshot `check_alert_conditions` receives (`.get` with
default 0 for the numeric entries, `None` for `health_status`). -/
structure Metrics where
  error_rate : Rat
  avg_response_time : Rat
  health_status : Option String
  active_users : Rat
deriving Repr, DecidableEq

/-- `NotificationSystem._evaluate_condition`. -/
def evaluate_condition (condition_type : String) (condition_value : CondValue)
    (m : Metrics) : Bool :=
  if condition_type = "error_rate_threshold" then
    match condition_value with
    | .num t => decide (m.error_rate > t)
    | .str _ => false
  else if condition_type = "response_time_threshold" then
    match condition_value with
    | .num t => decide (m.avg_response_time > t)
    | .str _ => false
  else if condition_type = "system_health" then
    match condition_value with
    | .num _ => false
    | .str v => decide (m.health_status = some v)
  else if condition_type = "active_users_low" then
    match condition_value with
    | .num t => decide (m.active_users < t)
    | .str _ => false
  else false

/-- Whether one pass of the `check_alert_conditions` loop triggers a
rule: the `SELECT` only yields enabled rules, a rule inside its cooldown
window is skipped (`continue`), and otherwise the condition decides. -/
def rule_triggers (now : Int) (m : Metrics) (r : AlertRule) : Bool :=
  r.enabled
    && (match r.last_triggered with
        | some t => decide (now - t ≥ r.cooldown_minutes)
        | none => true)
    && evaluate_condition r.condition_type r.condition_value m

/-- `NotificationSystem.check_alert_conditions`: returns the triggered
rules (as read, i.e. with their old `last_triggered`) and the table after
the `UPDATE ... SET last_triggered = CURRENT_TIMESTAMP` writes. -/
def check_alert_conditions (now : Int) (m : Metrics)
    (rules : List AlertRule) : List AlertRule × List AlertRule :=
  (rules.filter (rule_triggers now m),
   rules.map (fun r =>
     if rule_triggers now m r then { r with last_triggered := some now } else r))

/-! ## Specification reference table for the routing decision

For the refinement claim about `_make_routing_decision`, the rule table
of §4.3 of the specification is transcribed on its own terms (abstract
model names "advanced"/"standard", one priority-ordered rule list per
field) and compared with the embedded code. -/

/-- §4.3 `routingDecision`, transcribed from the specification's rule
table.  `useSystemPrompt` is listed in the contract without a defining
rule; the code's constant `true` is used. -/
def routingDecisionSpec (category : String) (complexity : Rat)
    (tier : String) : RoutingDecision :=
  let model : String :=
    if category = "coding" ∧ complexity > 6/10 then
      (if tier ≠ "free" then "advanced" else "standard")
    else if category = "debug" then "advanced"
    else if category = "design" then "advanced"
    else "standard"
  let maxTokens : Nat :=
    if category = "coding" ∧ complexity > 6/10 then
      (if complexity > 8/10 then 2000 else 1500)
    else if category = "debug" then 1500
    else if category = "design" then 1200
    else 1000
  { model := model
    max_tokens := maxTokens
    temperature := if category = "coding" ∨ category = "debug" then 3/10 else 7/10
    use_system_prompt := true
    enable_code_execution := category = "coding" ∧ tier = "enterprise" }

/-- The correspondence between the specification's abstract model names
and the concrete model identifiers of the source. -/
def concreteModel (m : String) : String :=
  if m = "advanced" then "gpt-4" else "gpt-3.5-turbo"

/-! # Theorems -/

/-- C1: the text "hello" matches no keyword of any of the five category
keyword sets — every category score is zero — yet `_analyze_task`
classifies it as "coding", not "general": the `"general"` fallback of
`primary_category` is only taken when the score dictionary is empty,
which never happens, and Python `max` resolves the all-zero tie to the
first dictionary key. -/
theorem c1_zero_scores_classified_as_coding :
    (category_scores "hello").all (fun p => p.2 = 0) = true ∧
    (analyze_task "hello").category = "coding" ∧
    (analyze_task "hello").category ≠ "general" := by
  refine ⟨by decide, by decide, by decide⟩

/-- C2: `_update_user_activity` performs no monthly-reset check at all:
for every call instant and every existing user it increments
`monthly_requests` and leaves `monthly_reset_date` untouched; in
particular, for a user whose reset date (instant 100) lies before the
call instant 200, the counter comes out stale at 8 instead of the 1 the
reset-before-increment contract demands. -/
theorem c2_no_monthly_reset_before_increment :
    (∀ now u, (update_user_activity now u).monthly_requests
        = u.monthly_requests + 1
      ∧ (update_user_activity now u).monthly_reset_date
        = u.monthly_reset_date) ∧
    (update_user_activity 200
        ⟨"15551234567", "free", 0, 7, 7, 100⟩).monthly_requests = 8 ∧
    (update_user_activity 200
        ⟨"15551234567", "free", 0, 7, 7, 100⟩).monthly_requests ≠ 0 + 1 := by
  exact ⟨fun now u => ⟨rfl, rfl⟩, by decide, by decide⟩

/-- C3, counterexample: rendering "Hi \x7b\x7bname\x7d\x7d" with an empty
variable map does not return the template unchanged — Python `format`
collapses the doubled braces, so the call returns "Hi \x7bname\x7d". -/
theorem c3_counterexample_doubled_braces_collapse :
    render_template "Hi \x7b\x7bname\x7d\x7d" [] = .ok "Hi \x7bname\x7d" ∧
    ("Hi \x7bname\x7d" : String) ≠ "Hi \x7b\x7bname\x7d\x7d" := by
  exact ⟨rfl, by decide⟩

/-- C3, amended: `_render_template` substitutes placeholders of the form
`\x7bname\x7d` when every referenced variable is present; when any
referenced variable is missing, the `KeyError` is caught and the whole
template is returned verbatim — no partial substitution, no error.
Doubled braces are escapes, so rendering "Hi \x7b\x7bname\x7d\x7d" with
an empty map yields "Hi \x7bname\x7d". -/
theorem c3_render_missing_variable_returns_template :
    (∀ t vars name, pyFormat t vars = .error (.keyError name) →
      render_template t vars = .ok t) ∧
    (∀ t vars s, pyFormat t vars = .ok s → render_template t vars = .ok s) ∧
    render_template "Hi \x7b\x7bname\x7d\x7d" [] = .ok "Hi \x7bname\x7d" ∧
    render_template "Hi \x7bname\x7d" [("name", "Bob")] = .ok "Hi Bob" ∧
    pyFormat "\x7ba\x7d and \x7bb\x7d" [("a", "1")] = .error (.keyError "b") ∧
    render_template "\x7ba\x7d and \x7bb\x7d" [("a", "1")]
      = .ok "\x7ba\x7d and \x7bb\x7d" := by
  refine ⟨?_, ?_, rfl, rfl, rfl, rfl⟩
  · intro t vars name h
    unfold render_template
    rw [h]
  · intro t vars s h
    unfold render_template
    rw [h]

/-- C3, witness: the missing-variable branch of the amended theorem at
the concrete template "\x7bx\x7d" with no variables. -/
theorem c3_render_missing_variable_witness :
    render_template "\x7bx\x7d" [] = .ok "\x7bx\x7d" :=
  c3_render_missing_variable_returns_template.1 "\x7bx\x7d" [] "x" rfl

/-- C4, counterexample: at `nowHour = end` the non-wrapping window is
still quiet — `_is_quiet_hours` with start 9, end 17 returns true at hour
17, where the claimed strict characterization `start ≤ nowHour < end`
demands false. -/
theorem c4_counterexample_end_hour_inclusive :
    is_quiet_hours (some 9) (some 17) 17 = true ∧
    ¬((9 : Int) ≤ 17 ∧ (17 : Int) < 17) := by
  exact ⟨by decide, by decide⟩

/-- C4, amended: `_is_quiet_hours` returns false when either bound is
unset; when start ≤ end it is quiet exactly when
start ≤ nowHour ≤ end (end inclusive); when start > end the window wraps
midnight and it is quiet exactly when nowHour ≥ start OR nowHour ≤ end
(again end inclusive).  The three example evaluations of the claim hold
unchanged. -/
theorem c4_quiet_hours_inclusive_bounds :
    (∀ e h, is_quiet_hours none e h = false) ∧
    (∀ s h, is_quiet_hours s none h = false) ∧
    (∀ s e h, s ≤ e →
      (is_quiet_hours (some s) (some e) h = true ↔ s ≤ h ∧ h ≤ e)) ∧
    (∀ s e h, s > e →
      (is_quiet_hours (some s) (some e) h = true ↔ h ≥ s ∨ h ≤ e)) ∧
    is_quiet_hours (some 22) (some 6) 23 = true ∧
    is_quiet_hours (some 22) (some 6) 12 = false ∧
    is_quiet_hours (some 9) (some 17) 10 = true := by
  refine ⟨?_, ?_, ?_, ?_, by decide, by decide, by decide⟩
  · intro e h; cases e <;> rfl
  · intro s h; cases s <;> rfl
  · intro s e h hse
    simp only [is_quiet_hours, if_pos hse, decide_eq_true_eq]
  · intro s e h hgt
    simp only [is_quiet_hours, if_neg (not_le.mpr hgt), decide_eq_true_eq]

/-- C4, witness: the two bounded arms of the amended theorem at the
concrete windows 9–17 (hour 10) and 22–6 (hour 23). -/
theorem c4_quiet_hours_witness :
    (is_quiet_hours (some 9) (some 17) 10 = true ↔
      (9 : Int) ≤ 10 ∧ (10 : Int) ≤ 17) ∧
    (is_quiet_hours (some 22) (some 6) 23 = true ↔
      (23 : Int) ≥ 22 ∨ (23 : Int) ≤ 6) :=
  ⟨c4_quiet_hours_inclusive_bounds.2.2.1 9 17 10 (by decide),
   c4_quiet_hours_inclusive_bounds.2.2.2.1 22 6 23 (by decide)⟩

/-- C5: a `send_notification` call over two explicit channels outside
quiet hours, whose first channel sender reports failure and whose second
reports success, yields a result set whose §4.7 aggregate
`overallSuccess` is true (at-least-one semantics), and appends one
history row per attempt — the failed one logged `failed`/`failed` with
its error, the successful one `sent`/`delivered`. -/
theorem c5_one_success_overall_success_both_logged :
    ∀ (cfg : NotifConfig) (prefs : UserPrefs) (hr : Int)
      (recipient tname ch1 ch2 msg : String) (hist : List HistoryRow)
      (adapter : String → Except String SendResult),
    prefs.quiet_hours_start = none →
    adapter ch1 = .ok { success := false, error := some msg } →
    adapter ch2 = .ok { success := true, error := none } →
    overallSuccess (send_notification cfg prefs hr recipient tname
        (some [ch1, ch2]) adapter hist).1 = true ∧
    (send_notification cfg prefs hr recipient tname
        (some [ch1, ch2]) adapter hist).2
      = hist ++ [⟨recipient, ch1, tname, "failed", "failed", msg⟩,
                 ⟨recipient, ch2, tname, "sent", "delivered", ""⟩] := by
  intro cfg prefs hr recipient tname ch1 ch2 msg hist adapter hq h1 h2
  have hquiet : is_quiet_hours prefs.quiet_hours_start prefs.quiet_hours_end hr
      = false := by
    rw [hq]; cases prefs.quiet_hours_end <;> rfl
  simp [send_notification, hquiet, send_channel, h1, h2, log_notification,
    overallSuccess, Option.getD]

/-- C5, witness: the dispatcher theorem at a concrete two-channel call
whose sms sender fails and whose email sender succeeds. -/
theorem c5_one_success_witness :
    overallSuccess (send_notification ⟨"", ""⟩
        ⟨none, true, false, none, none, none⟩ 12 "15551234567"
        "task_completion" (some ["sms", "email"])
        (fun ch => if ch = "sms" then
            .ok { success := false, error := some "boom" }
          else .ok { success := true, error := none }) []).1 = true ∧
    (send_notification ⟨"", ""⟩
        ⟨none, true, false, none, none, none⟩ 12 "15551234567"
        "task_completion" (some ["sms", "email"])
        (fun ch => if ch = "sms" then
            .ok { success := false, error := some "boom" }
          else .ok { success := true, error := none }) []).2
      = [⟨"15551234567", "sms", "task_completion", "failed", "failed", "boom"⟩,
         ⟨"15551234567", "email", "task_completion", "sent", "delivered", ""⟩] :=
  c5_one_success_overall_success_both_logged ⟨"", ""⟩
    ⟨none, true, false, none, none, none⟩ 12 "15551234567"
    "task_completion" "sms" "email" "boom" []
    (fun ch => if ch = "sms" then
        .ok { success := false, error := some "boom" }
      else .ok { success := true, error := none })
    rfl rfl rfl

/-- C6: when `_check_rate_limits` denies, `route_task` returns that
denial verbatim and leaves the whole store untouched — no task row (and
no error-log row) is written; the monthly denial carries its reason with
the upgrade hint, the daily denial its reason with the retry-after-24h
hint. -/
theorem c6_denied_quota_no_task_persisted :
    (∀ (phone text : String) (u : UserInfo) (daily : Except String Nat)
       (persist : Except String Nat) (st : RouterState) (r : RateLimitResult),
      check_rate_limits u.tier u.monthly_requests daily = .ok r →
      r ≠ .allowed →
      route_task phone text (.ok u) daily persist st = (.denied r, st)) ∧
    (∀ tier monthly daily, monthly ≥ (tierLimits tier).monthly →
      ∃ msg, check_rate_limits tier monthly daily
        = .ok (.deniedMonthly msg true)) ∧
    (∀ tier monthly d, monthly < (tierLimits tier).monthly →
      d ≥ (tierLimits tier).daily →
      ∃ msg, check_rate_limits tier monthly (.ok d)
        = .ok (.deniedDaily msg "24 hours")) := by
  refine ⟨?_, ?_, ?_⟩
  · intro phone text u daily persist st r hchk hne
    cases r with
    | allowed => exact absurd rfl hne
    | deniedMonthly msg up => simp [route_task, hchk]
    | deniedDaily msg ra => simp [route_task, hchk]
  · intro tier monthly daily hm
    simp only [check_rate_limits, if_pos hm]
    exact ⟨_, rfl⟩
  · intro tier monthly d hm hd
    simp only [check_rate_limits, if_neg (not_le.mpr hm), if_pos hd]
    exact ⟨_, rfl⟩

/-- C6, witness: a free-tier user at the monthly limit of 50 is denied
with the upgrade hint and the store is unchanged. -/
theorem c6_denied_quota_witness :
    route_task "15551234567" "fix my code" (.ok ⟨"15551234567", "free", 50, 50⟩)
        (.ok 0) (.ok 1) ⟨[], []⟩
      = (.denied (.deniedMonthly
          "Monthly limit exceeded (50 requests/month for free tier)" true),
         ⟨[], []⟩) :=
  c6_denied_quota_no_task_persisted.1 "15551234567" "fix my code"
    ⟨"15551234567", "free", 50, 50⟩ (.ok 0) (.ok 1) ⟨[], []⟩
    (.deniedMonthly "Monthly limit exceeded (50 requests/month for free tier)"
      true)
    rfl (by decide)

/-- C7, counterexample: `core/views.py::check_rate_limit` silently passes
the request when the limiter itself fails — for a user whose reset
instant has passed, a failing `user.save()` (storage unavailable) makes
the check return `true` (allowed), its source comment reading
"Allow on error". -/
theorem c7_counterexample_views_rate_limit_fails_open :
    views_check_rate_limit 200 300 ⟨"free", 999, 100⟩
      (.error "storage unavailable") = true := by
  decide

/-- C7, amended: in the `TaskRouter` routing path a limiter failure (the
daily-count query raising) is surfaced as the routing-error result, never
as Allowed; the Django webhook helper `check_rate_limit`, by contrast,
catches limiter errors and deliberately returns `true` (fails open,
"Allow on error"). -/
theorem c7_limiter_failure_two_paths :
    (∀ (phone text : String) (u : UserInfo) (persist : Except String Nat)
       (st : RouterState) (e : String),
      u.monthly_requests < (tierLimits u.tier).monthly →
      route_task phone text (.ok u) (.error e) persist st
        = (.failed "Task routing failed" true,
           log_error st phone "ROUTING_ERROR" e text)) ∧
    (∀ (now next_month : Nat) (user : DjangoUser) (err : String),
      user.rate_limit_reset ≤ now →
      views_check_rate_limit now next_month user (.error err) = true) := by
  constructor
  · intro phone text u persist st e hm
    simp [route_task, check_rate_limits, if_neg (not_le.mpr hm)]
  · intro now next_month user err hr
    simp [views_check_rate_limit, if_pos hr]

/-- C7, witness: the amended theorem at a concrete under-quota free user
with a failing daily-count query, and at a concrete Django user with a
failing save. -/
theorem c7_limiter_failure_witness :
    route_task "15551234567" "hello" (.ok ⟨"15551234567", "free", 3, 3⟩)
        (.error "database is locked") (.ok 1) ⟨[], []⟩
      = (.failed "Task routing failed" true,
         log_error ⟨[], []⟩ "15551234567" "ROUTING_ERROR"
           "database is locked" "hello") ∧
    views_check_rate_limit 200 300 ⟨"premium", 5, 100⟩ (.error "down") = true :=
  ⟨c7_limiter_failure_two_paths.1 "15551234567" "hello"
      ⟨"15551234567", "free", 3, 3⟩ (.ok 1) ⟨[], []⟩ "database is locked"
      (by decide),
   c7_limiter_failure_two_paths.2 200 300 ⟨"premium", 5, 100⟩ "down"
      (by decide)⟩

/-- C8: `_make_routing_decision` agrees with the specification's §4.3
rule table field by field, its model being the concrete name of the
table's abstract model; in particular, for category "coding",
complexity 0.7, tier "premium", the table gives model "advanced" with
1500 max tokens and the code gives "gpt-4" with 1500. -/
theorem c8_routing_decision_matches_spec_table :
    (∀ (category : String) (complexity : Rat) (tier : String),
      (make_routing_decision category complexity tier).model
          = concreteModel (routingDecisionSpec category complexity tier).model
        ∧ (make_routing_decision category complexity tier).max_tokens
          = (routingDecisionSpec category complexity tier).max_tokens
        ∧ (make_routing_decision category complexity tier).temperature
          = (routingDecisionSpec category complexity tier).temperature
        ∧ (make_routing_decision category complexity tier).enable_code_execution
          = (routingDecisionSpec category complexity tier).enable_code_execution) ∧
    (routingDecisionSpec "coding" (7/10) "premium").model = "advanced" ∧
    (routingDecisionSpec "coding" (7/10) "premium").max_tokens = 1500 ∧
    (make_routing_decision "coding" (7/10) "premium").model = "gpt-4" ∧
    (make_routing_decision "coding" (7/10) "premium").max_tokens = 1500 := by
  refine ⟨?_, ?_, ?_, ?_, ?_⟩
  · intro category complexity tier
    by_cases h1 : category = "coding" ∧ complexity > 6/10
    · by_cases ht : tier = "free" <;>
        simp [make_routing_decision, routingDecisionSpec, concreteModel, h1, ht]
    · by_cases h2 : category = "debug"
      · simp [make_routing_decision, routingDecisionSpec, concreteModel, h1, h2]
      · by_cases h3 : category = "design" <;>
          simp [make_routing_decision, routingDecisionSpec, concreteModel,
            h1, h2, h3]
  all_goals norm_num [make_routing_decision, routingDecisionSpec]
  all_goals decide

/-- C9: for an enabled rule with a recorded `last_triggered`,
`check_alert_conditions` skips it (no trigger, row unchanged) while
`now - last_triggered` is below the cooldown, and once the cooldown has
elapsed evaluates its condition — re-triggering it and stamping
`last_triggered := now` when the condition holds. -/
theorem c9_cooldown_gates_retrigger :
    ∀ (now : Int) (m : Metrics) (r : AlertRule) (t : Int),
    r.enabled = true → r.last_triggered = some t →
    (now - t < r.cooldown_minutes →
      check_alert_conditions now m [r] = ([], [r])) ∧
    (now - t ≥ r.cooldown_minutes →
      evaluate_condition r.condition_type r.condition_value m = true →
      check_alert_conditions now m [r]
        = ([r], [{ r with last_triggered := some now }])) := by
  intro now m r t hen hlast
  constructor
  · intro hcool
    have htrig : rule_triggers now m r = false := by
      simp [rule_triggers, hlast, not_le.mpr hcool]
    simp [check_alert_conditions, htrig]
  · intro hcool hcond
    have htrig : rule_triggers now m r = true := by
      simp [rule_triggers, hen, hlast, hcool, hcond]
    simp [check_alert_conditions, htrig]

/-- C9, witness: a "System Down" rule with a 60-minute cooldown last
triggered at instant 0 is skipped at instant 1 but re-triggered (and
re-stamped) at instant 61 when the health metric is critical. -/
theorem c9_cooldown_witness :
    check_alert_conditions 1
        ⟨0, 0, some "critical", 0⟩
        [⟨2, "System Down", "system_health", .str "critical", "critical",
          ["slack"], true, 60, some 0⟩]
      = ([], [⟨2, "System Down", "system_health", .str "critical", "critical",
          ["slack"], true, 60, some 0⟩]) ∧
    check_alert_conditions 61
        ⟨0, 0, some "critical", 0⟩
        [⟨2, "System Down", "system_health", .str "critical", "critical",
          ["slack"], true, 60, some 0⟩]
      = ([⟨2, "System Down", "system_health", .str "critical", "critical",
          ["slack"], true, 60, some 0⟩],
         [⟨2, "System Down", "system_health", .str "critical", "critical",
          ["slack"], true, 60, some 61⟩]) :=
  ⟨(c9_cooldown_gates_retrigger 1 ⟨0, 0, some "critical", 0⟩
      ⟨2, "System Down", "system_health", .str "critical", "critical",
        ["slack"], true, 60, some 0⟩ 0 rfl rfl).1 (by decide),
   (c9_cooldown_gates_retrigger 61 ⟨0, 0, some "critical", 0⟩
      ⟨2, "System Down", "system_health", .str "critical", "critical",
        ["slack"], true, 60, some 0⟩ 0 rfl rfl).2 (by decide) (by decide)⟩

/-- C10: every raise inside `route_task`'s `try` block — the user-activity
update, the daily-count query once the monthly check passes, or the task
insert once the quota check passes — is caught: the call returns the
fallback dictionary `success=False` / "Task routing failed" /
`fallback_to_basic=True` after appending a `ROUTING_ERROR` row to the
error log. -/
theorem c10_route_task_catches_all_step_errors :
    (∀ (phone text : String) (daily persist : Except String Nat)
       (st : RouterState) (e : String),
      route_task phone text (.error e) daily persist st
        = (.failed "Task routing failed" true,
           log_error st phone "ROUTING_ERROR" e text)) ∧
    (∀ (phone text : String) (u : UserInfo) (persist : Except String Nat)
       (st : RouterState) (e : String),
      u.monthly_requests < (tierLimits u.tier).monthly →
      route_task phone text (.ok u) (.error e) persist st
        = (.failed "Task routing failed" true,
           log_error st phone "ROUTING_ERROR" e text)) ∧
    (∀ (phone text : String) (u : UserInfo) (d : ℕ) (st : RouterState)
       (e : String),
      u.monthly_requests < (tierLimits u.tier).monthly →
      d < (tierLimits u.tier).daily →
      route_task phone text (.ok u) (.ok d) (.error e) st
        = (.failed "Task routing failed" true,
           log_error st phone "ROUTING_ERROR" e text)) := by
  refine ⟨?_, ?_, ?_⟩
  · intro phone text daily persist st e
    simp [route_task]
  · intro phone text u persist st e hm
    simp [route_task, check_rate_limits, if_neg (not_le.mpr hm)]
  · intro phone text u d st e hm hd
    simp [route_task, check_rate_limits, if_neg (not_le.mpr hm),
      if_neg (not_le.mpr hd)]

/-- C10, witness: the second and third arms at a concrete under-quota
premium user whose daily-count query, respectively task insert, raises. -/
theorem c10_route_task_witness :
    route_task "15550001111" "write a loop" (.ok ⟨"15550001111", "premium", 9, 9⟩)
        (.error "disk I/O error") (.ok 7) ⟨[], []⟩
      = (.failed "Task routing failed" true,
         log_error ⟨[], []⟩ "15550001111" "ROUTING_ERROR" "disk I/O error"
           "write a loop") ∧
    route_task "15550001111" "write a loop" (.ok ⟨"15550001111", "premium", 9, 9⟩)
        (.ok 2) (.error "disk I/O error") ⟨[], []⟩
      = (.failed "Task routing failed" true,
         log_error ⟨[], []⟩ "15550001111" "ROUTING_ERROR" "disk I/O error"
           "write a loop") :=
  ⟨c10_route_task_catches_all_step_errors.2.1 "15550001111" "write a loop"
      ⟨"15550001111", "premium", 9, 9⟩ (.ok 7) ⟨[], []⟩ "disk I/O error"
      (by decide),
   c10_route_task_catches_all_step_errors.2.2 "15550001111" "write a loop"
      ⟨"15550001111", "premium", 9, 9⟩ 2 ⟨[], []⟩ "disk I/O error"
      (by decide) (by decide)⟩

end Sms2AI
